import Mathlib

/-!
Verification of the CarePilot symptom-triage and feedback-learning core.

The Python source is shallowly embedded: floats become rationals, Python
dicts become association lists (insertion-ordered, as in CPython), regular
expressions of the shape `\b(alt1|alt2|...)\b` become word-boundary phrase
matchers, and fallible dictionary indexing becomes `Except`.
-/

namespace CarePilot

/-- Decidable equality on `Except`, used to evaluate fallible updates. -/
instance instDecidableEqExcept {ε α : Type} [DecidableEq ε] [DecidableEq α] :
    DecidableEq (Except ε α) := fun a b =>
  match a, b with
  | .error e, .error f =>
    if h : e = f then .isTrue (by subst h; rfl) else .isFalse (fun hc => h (by cases hc; rfl))
  | .error _, .ok _ => .isFalse (fun hc => Except.noConfusion hc)
  | .ok _, .error _ => .isFalse (fun hc => Except.noConfusion hc)
  | .ok x, .ok y =>
    if h : x = y then .isTrue (by subst h; rfl) else .isFalse (fun hc => h (by cases hc; rfl))

/-! ## String utilities mirroring Python semantics -/

/-- Python's `\w` word-character class restricted to ASCII, as used by the
word-boundary assertions in the triage regexes. -/
def isWordChar (c : Char) : Bool := c.isAlphanum || c == '_'

/-- ASCII lower-casing of one character (`str.lower` / `re.I`). -/
def lowerChar (c : Char) : Char :=
  if 'A' ≤ c ∧ c ≤ 'Z' then Char.ofNat (c.toNat + 32) else c

/-- ASCII `str.lower()`. -/
def strLower (s : String) : String := String.mk (s.data.map lowerChar)

/-- `str.strip()`: drop leading and trailing whitespace. -/
def pyStrip (s : String) : String :=
  String.mk (((s.data.dropWhile Char.isWhitespace).reverse.dropWhile Char.isWhitespace).reverse)

/-- If `p` is a leading segment of `s`, return the remainder of `s`. -/
def dropMatch : List Char → List Char → Option (List Char)
  | [], s => some s
  | _, [] => none
  | c :: p, d :: s => if c == d then dropMatch p s else none

/-- Word-boundary check for the position just after a matched phrase. -/
def afterOk : List Char → Bool
  | [] => true
  | c :: _ => !isWordChar c

/-- Does the phrase `p` match at the head of `s`, ending at a word boundary? -/
def matchHere (p s : List Char) : Bool :=
  match dropMatch p s with
  | some rest => afterOk rest
  | none => false

/-- Scan `s` for an occurrence of phrase `p` whose start sits at a word
boundary (tracked by `prevWord`, whether the previous char is a word char)
and whose end sits at a word boundary. -/
def bMatchAux (p : List Char) : Bool → List Char → Bool
  | prevWord, [] => !prevWord && matchHere p []
  | prevWord, c :: rest =>
    (!prevWord && matchHere p (c :: rest)) || bMatchAux p (isWordChar c) rest

/-- `\b phrase \b` case-insensitive search of `phrase` inside `text`,
mirroring `re.compile(r"\b(...)\b", re.I).search`. -/
def bMatch (phrase text : String) : Bool :=
  bMatchAux (phrase.data.map lowerChar) false (text.data.map lowerChar)

/-- One compiled triage regex `\b(a1|a2|...)\b`: any alternative matches. -/
def patMatch (alts : List String) (text : String) : Bool :=
  alts.any (fun a => bMatch a text)

/-- Plain substring containment, Python's `needle in haystack`. -/
def hasSubAux (n : List Char) : List Char → Bool
  | [] => (dropMatch n []).isSome
  | c :: rest => (dropMatch n (c :: rest)).isSome || hasSubAux n rest

/-- `strContains hay needle` is Python's `needle in hay` (both as given). -/
def strContains (hay needle : String) : Bool :=
  hasSubAux needle.data hay.data

/-- Worker for `pySplit`: `acc` holds the current token, reversed. -/
def pySplitAux : List Char → List Char → List String
  | acc, [] => if acc = [] then [] else [String.mk acc.reverse]
  | acc, c :: rest =>
    if c.isWhitespace then
      if acc = [] then pySplitAux [] rest
      else String.mk acc.reverse :: pySplitAux [] rest
    else pySplitAux (c :: acc) rest

/-- Python's `str.split()`: split on whitespace runs, dropping empties. -/
def pySplit (s : String) : List String := pySplitAux [] s.data

/-! ## Stable descending sort by a rational score

Python's `list.sort(key=lambda x: x["score"], reverse=True)` is a stable
sort: entries with equal scores keep their original relative order.  Any
stable descending sort is extensionally unique, so an insertion sort that
inserts each element before strictly-smaller-scored tails models it. -/

/-- Insert `p` into `l`, placing it before the first element whose score is
at most `sc p` (so, before all equal-scored elements coming later). -/
def insertScored {α : Type} (sc : α → ℚ) (p : α) : List α → List α
  | [] => [p]
  | q :: l => if sc q ≤ sc p then p :: q :: l else q :: insertScored sc p l

/-- Stable descending insertion sort by score. -/
def sortScored {α : Type} (sc : α → ℚ) : List α → List α
  | [] => []
  | p :: l => insertScored sc p (sortScored sc l)

/-! ## Triage engine (src/triage.py) -/

/-- Result record of `compute_triage`. -/
structure TriageResult where
  level : String
  reasons : List String
  actions : List String
deriving DecidableEq, Repr

/-- The emergency regexes, each `\b(a1|...|an)\b` given by its alternative
phrases (suffix groups like `short(ness)? of breath` and the shared trailing
word in `(violent|worst|thunderclap|sudden severe) headache` are expanded). -/
def EMERGENCY_PATTERNS : List (List String) := [
  ["chest pain", "pressure", "tightness", "squeezing", "crushing"],
  ["short of breath", "shortness of breath", "difficulty breathing", "can\x27t breathe", "struggling to breathe"],
  ["sudden weakness", "facial droop", "slurred speech", "one-sided weakness", "arm weakness"],
  ["irregular heartbeat", "racing heart", "palpitations", "heart skipping"],
  ["violent headache", "worst headache", "thunderclap headache", "sudden severe headache"],
  ["confusion", "loss of consciousness", "fainted", "fainting", "unresponsive"],
  ["seizure", "convulsions", "uncontrollable shaking", "epileptic"],
  ["sudden vision loss", "double vision", "blind spot"],
  ["anaphylaxis", "throat swelling", "can\x27t breathe", "airway obstruction"],
  ["severe asthma attack", "wheezing severely", "blue lips", "cyanosis"],
  ["severe bleeding", "uncontrolled bleeding", "profuse bleeding", "arterial bleeding"],
  ["head injury", "concussion", "loss of consciousness", "memory loss"],
  ["severe burn", "third degree", "chemical burn"],
  ["severe abdominal pain", "peritonitis", "rigid abdomen"],
  ["vomiting blood", "hematemesis", "black stools", "melena"],
  ["diabetic ketoacidosis", "DKA", "high blood sugar", "ketones"],
  ["severe hypoglycemia", "low blood sugar", "diabetic coma"],
  ["heat stroke", "hyperthermia", "no sweating", "hot and dry"],
  ["hypothermia", "severe cold", "shivering uncontrollably"],
  ["drug overdose", "alcohol poisoning", "suicide attempt", "poisoning"],
  ["carbon monoxide", "CO poisoning", "headache nausea confusion"],
  ["high fever", "febrile seizure", "temperature over 104"],
  ["severe dehydration", "no urination", "sunken eyes", "dry mouth"],
  ["croup", "barking cough", "stridor", "difficulty breathing"]]

/-- The urgent regexes, in source order, as alternative phrase lists. -/
def URGENT_PATTERNS : List (List String) := [
  ["fever", "temperature", "high temp", "chills"],
  ["persistent fever", "fever for days", "fever not responding"],
  ["severe infection", "worsening infection", "spreading infection"],
  ["severe pain", "intense pain", "unbearable pain", "pain scale 8", "pain scale 9", "pain scale 10"],
  ["persistent pain", "pain not improving", "pain getting worse"],
  ["abdominal pain", "stomach pain", "belly pain"],
  ["chest pain", "chest discomfort", "chest pressure"],
  ["persistent vomiting", "unable to keep fluids down", "vomiting blood"],
  ["severe diarrhea", "bloody diarrhea", "dehydration"],
  ["severe nausea", "constant nausea", "can\x27t eat"],
  ["coughing blood", "hemoptysis", "blood in sputum"],
  ["worsening cough", "cough not improving", "persistent cough"],
  ["shortness of breath", "breathing difficulty", "can\x27t catch breath"],
  ["severe headache", "migraine", "headache not responding"],
  ["confusion", "disorientation", "memory problems"],
  ["seizure", "convulsions", "uncontrollable shaking"],
  ["chest pain", "chest pressure", "chest tightness"],
  ["irregular heartbeat", "palpitations", "racing heart"],
  ["dizziness", "lightheadedness", "feeling faint"],
  ["painful urination", "burning urination", "blood in urine"],
  ["severe back pain", "flank pain", "kidney pain"],
  ["inability to urinate", "urinary retention", "no urination"],
  ["severe rash", "spreading rash", "rash with fever"],
  ["allergic reaction", "swelling", "hives"],
  ["severe itching", "uncontrollable itching"],
  ["severe back pain", "back pain with numbness", "back pain with weakness"],
  ["joint swelling", "severe joint pain", "joint deformity"],
  ["inability to move", "paralysis", "numbness"],
  ["fever in infant", "fever under 3 months", "high fever child"],
  ["severe dehydration", "no wet diapers", "sunken fontanelle"],
  ["severe croup", "barking cough", "stridor"],
  ["fever in elderly", "confusion in elderly", "fall in elderly"],
  ["severe weakness", "inability to walk", "bedridden"],
  ["suicidal thoughts", "self harm", "suicide attempt"],
  ["severe depression", "hopelessness", "can\x27t function"],
  ["severe anxiety", "panic attack", "can\x27t calm down"]]

/-- Age-bracket block of `compute_triage`: first matching bracket sets the
multiplier (from its initial 1.0) and contributes one reason. -/
def ageAdjust (age : Option Int) : ℚ × List String :=
  match age with
  | none => (1, [])
  | some a =>
    if a < 1 then (2.5, ["Infant under 1 year - very high risk"])
    else if a < 3 then (2, ["Child under 3 years - high risk"])
    else if a < 12 then (1.3, ["Child under 12 years - higher risk"])
    else if a ≥ 80 then (1.8, ["Age 80+ - very high risk"])
    else if a ≥ 65 then (1.4, ["Age 65+ - higher risk"])
    else if a ≥ 50 then (1.1, ["Age 50+ - slightly higher risk"])
    else (1, [])

/-- Duration block: multiplier factor and reason of the matching bracket. -/
def durationAdjust (durationHours : Option ℚ) : ℚ × List String :=
  match durationHours with
  | none => (1, [])
  | some d =>
    if d < 0.5 then (1.4, ["Very recent onset (< 30 minutes)"])
    else if d < 1 then (1.3, ["Recent onset (< 1 hour)"])
    else if d < 6 then (1.2, ["Acute onset (< 6 hours)"])
    else if d > 168 then (1, ["Symptoms persist > 7 days"])
    else if d > 72 then (1, ["Symptoms persist > 3 days"])
    else if d > 24 then (1, ["Symptoms persist > 24 hours"])
    else (1, [])

/-- Medical-history block: six independent term-group checks on the
lowercased history, each multiplying and appending a reason. -/
def historyAdjust (medicalHistory : Option String) : ℚ × List String :=
  match medicalHistory with
  | none => (1, [])
  | some hs =>
    if hs = "" then (1, []) else
    let hl := strLower hs
    let c1 : ℚ × List String :=
      if ["diabetes", "diabetic", "heart disease", "hypertension", "high blood pressure", "coronary artery disease"].any (fun t => strContains hl t)
      then (1.3, ["Cardiovascular risk factors"]) else (1, [])
    let c2 : ℚ × List String :=
      if ["immunocompromised", "cancer", "chemotherapy", "transplant", "hiv", "aids"].any (fun t => strContains hl t)
      then (1.6, ["Immunocompromised status - high risk"]) else (1, [])
    let c3 : ℚ × List String :=
      if ["pregnancy", "pregnant", "gestational"].any (fun t => strContains hl t)
      then (1.4, ["Pregnancy - higher risk"]) else (1, [])
    let c4 : ℚ × List String :=
      if ["stroke", "cerebrovascular", "neurological", "seizure", "epilepsy"].any (fun t => strContains hl t)
      then (1.3, ["Neurological history"]) else (1, [])
    let c5 : ℚ × List String :=
      if ["asthma", "copd", "lung disease", "respiratory"].any (fun t => strContains hl t)
      then (1.2, ["Respiratory history"]) else (1, [])
    let c6 : ℚ × List String :=
      if ["kidney disease", "renal", "dialysis", "liver disease", "hepatic"].any (fun t => strContains hl t)
      then (1.3, ["Organ dysfunction"]) else (1, [])
    (c1.1 * c2.1 * c3.1 * c4.1 * c5.1 * c6.1,
     c1.2 ++ c2.2 ++ c3.2 ++ c4.2 ++ c5.2 ++ c6.2)

/-- Pain-scale block: mutually exclusive brackets. -/
def painAdjust (painScale : Option Int) : ℚ × List String :=
  match painScale with
  | none => (1, [])
  | some p =>
    if p ≥ 9 then (1.8, ["Severe pain level (" ++ toString p ++ "/10) - immediate attention needed"])
    else if p ≥ 8 then (1.6, ["Very high pain level (" ++ toString p ++ "/10)"])
    else if p ≥ 7 then (1.4, ["High pain level (" ++ toString p ++ "/10)"])
    else if p ≥ 5 then (1.2, ["Moderate pain level (" ++ toString p ++ "/10)"])
    else if p > 0 then (1, ["Mild pain level (" ++ toString p ++ "/10)"])
    else (1, [])

/-- Severity-label block: three-way on the lowercased label. -/
def severityAdjust (severity : Option String) : ℚ × List String :=
  match severity with
  | none => (1, [])
  | some s =>
    if s = "" then (1, [])
    else if strLower s = "severe" then (1.6, ["Severe symptom severity"])
    else if strLower s = "moderate" then (1.2, ["Moderate symptom severity"])
    else (1, ["Mild symptom severity"])

/-- Step 1 of `compute_triage`: urgency multiplier and context reasons,
accumulated in source order (age, duration, history, pain, severity). -/
def stepOne (age : Option Int) (durationHours : Option ℚ) (medicalHistory : Option String)
    (painScale : Option Int) (severity : Option String) : ℚ × List String :=
  let a := ageAdjust age
  let d := durationAdjust durationHours
  let h := historyAdjust medicalHistory
  let p := painAdjust painScale
  let s := severityAdjust severity
  (a.1 * d.1 * h.1 * p.1 * s.1, a.2 ++ d.2 ++ h.2 ++ p.2 ++ s.2)

/-- One fixed "red flag" reason per matching emergency pattern. -/
def emergencyReasons (text : String) : List String :=
  (EMERGENCY_PATTERNS.filter (fun p => patMatch p text)).map
    (fun _ => "Emergency red flag detected")

def emergencyActions : List String := [
  "🚨 Call your local emergency number immediately (911, 999, 112, etc.)",
  "🚨 Do not drive yourself - use emergency services",
  "🚨 If unconscious, call emergency services and begin CPR if trained",
  "🚨 Stay with the person until help arrives",
  "🚨 Do not delay - every minute counts in emergencies"]

def urgentActions12 : List String := [
  "🏥 Seek urgent care or contact your healthcare provider within 12 hours",
  "🏥 Consider visiting urgent care center or emergency department",
  "📞 Call your doctor\x27s office for same-day appointment",
  "⚠️ If symptoms worsen or new red flags develop, call emergency services",
  "📝 Keep track of symptoms and any changes",
  "🔄 Monitor closely and seek immediate care if condition deteriorates"]

def urgentActions24 : List String := [
  "🏥 Seek urgent care or contact your healthcare provider within 24 hours",
  "🏥 Consider visiting urgent care center if symptoms worsen",
  "📞 Call your doctor\x27s office for appointment within 1-2 days",
  "⚠️ If symptoms worsen or new red flags develop, seek immediate care",
  "📝 Keep track of symptoms and any changes"]

/-- The urgent scan and its context-specific extra increments: total
`urgent_count` and the urgent reasons, in source order. -/
def urgentData (text : String) (age : Option Int) (durationHours : Option ℚ)
    (painScale : Option Int) (severity : Option String) : ℕ × List String :=
  let base := URGENT_PATTERNS.filter (fun p => patMatch p text)
  let tl := strLower text
  let a : ℕ × List String :=
    match age with
    | none => (0, [])
    | some a =>
      let e1 : ℕ × List String :=
        if a ≥ 65 ∧ ["fever", "temperature", "chills", "confusion"].any (fun t => strContains tl t)
        then (2, ["Age 65+ with fever/confusion - high risk"]) else (0, [])
      let e2 : ℕ × List String :=
        if a < 3 ∧ ["fever", "temperature", "chills"].any (fun t => strContains tl t)
        then (2, ["Child under 3 with fever - high risk"]) else (0, [])
      let e3 : ℕ × List String :=
        if a < 1 ∧ ["fever", "temperature"].any (fun t => strContains tl t)
        then (3, ["Infant with fever - immediate attention needed"]) else (0, [])
      let e4 : ℕ × List String :=
        if a < 6 ∧ ["croup", "barking cough", "stridor"].any (fun t => strContains tl t)
        then (2, ["Young child with respiratory distress - urgent"]) else (0, [])
      (e1.1 + e2.1 + e3.1 + e4.1, e1.2 ++ e2.2 ++ e3.2 ++ e4.2)
  let d : ℕ × List String :=
    match durationHours with
    | none => (0, [])
    | some d =>
      let e1 : ℕ × List String :=
        if d > 24 ∧ ["fever", "pain", "nausea", "vomiting", "diarrhea"].any (fun t => strContains tl t)
        then (1, ["Symptoms persisting > 24 hours"]) else (0, [])
      let e2 : ℕ × List String :=
        if d > 48 ∧ ["fever", "pain", "nausea", "vomiting"].any (fun t => strContains tl t)
        then (1, ["Symptoms persisting > 48 hours"]) else (0, [])
      (e1.1 + e2.1, e1.2 ++ e2.2)
  let p : ℕ × List String :=
    match painScale with
    | none => (0, [])
    | some p =>
      if p ≥ 7 then (1, ["High pain level (" ++ toString p ++ "/10) - urgent evaluation needed"])
      else (0, [])
  let s : ℕ × List String :=
    match severity with
    | none => (0, [])
    | some s =>
      if s ≠ "" ∧ strLower s = "severe"
      then (1, ["Severe symptom severity - urgent evaluation needed"]) else (0, [])
  (base.length + a.1 + d.1 + p.1 + s.1,
   base.map (fun _ => "Urgent concern detected") ++ a.2 ++ d.2 ++ p.2 ++ s.2)

/-- Persistence keywords consulted by the moderate-symptom routine branch. -/
def moderateSymptoms (text : String) : Bool :=
  ["persistent", "ongoing", "recurring", "chronic", "daily", "frequent", "intermittent"].any
    (fun t => strContains (strLower text) t)

/-- `duration_hours is not None and duration_hours > c`. -/
def durGt (durationHours : Option ℚ) (c : ℚ) : Bool :=
  match durationHours with
  | some d => decide (c < d)
  | none => false

/-- Python truthiness of an optional float: not `None` and not `0.0`. -/
def pyTruthy (durationHours : Option ℚ) : Bool :=
  match durationHours with
  | some d => decide (d ≠ 0)
  | none => false

/-- Steps 5-6 of `compute_triage` (the Routine / Self-care tail), reached
when neither the emergency nor the urgent thresholds fired.  `reasons` is
the step-1 context reason list; the urgent reasons never reach here. -/
def fallThroughTriage (text : String) (durationHours : Option ℚ) (reasons : List String) : TriageResult :=
  if durGt durationHours 168 then
    { level := "Routine"
      reasons := "Symptoms persist > 7 days" :: reasons
      actions := [
        "📅 Schedule a routine appointment with your primary care provider",
        "📝 Keep a detailed symptom diary and bring it to your visit",
        "📊 Note symptom patterns, triggers, and any treatments tried",
        "🔄 Monitor symptoms and seek care if they worsen",
        "💊 Consider over-the-counter treatments as appropriate"] }
  else if moderateSymptoms text && pyTruthy durationHours && durGt durationHours 72 then
    { level := "Routine"
      reasons := "Moderate persistent symptoms" :: reasons
      actions := [
        "📅 Schedule appointment with your healthcare provider within 1-2 weeks",
        "📝 Document symptoms, triggers, and treatments tried",
        "🔄 Continue monitoring and seek care if symptoms worsen",
        "💊 Consider over-the-counter treatments as appropriate"] }
  else
    { level := "Self-care"
      reasons := "No urgent red flags detected" :: reasons
      actions := [
        "🏠 Consider rest, fluids, and over-the-counter symptom relief as appropriate",
        "📊 Monitor symptoms closely for any changes or worsening",
        "📝 Keep track of symptom progression and triggers",
        "🔄 If symptoms worsen, persist beyond 3 days, or new symptoms develop, seek medical advice",
        "📞 Contact healthcare provider if you have concerns",
        "💊 Use appropriate over-the-counter medications as directed",
        "🥤 Stay hydrated and get adequate rest"] }

/-- `compute_triage` of src/triage.py: strip the text, compute the step-1
multiplier and context reasons, short-circuit on any emergency match, then
apply the urgent-count thresholds, else fall through to Routine/Self-care. -/
def compute_triage (symptomText : String) (age : Option Int) (durationHours : Option ℚ)
    (medicalHistory : Option String) (painScale : Option Int) (severity : Option String) :
    TriageResult :=
  let text := pyStrip symptomText
  let sm := stepOne age durationHours medicalHistory painScale severity
  if EMERGENCY_PATTERNS.any (fun p => patMatch p text) then
    { level := "Emergency", reasons := emergencyReasons text ++ sm.2, actions := emergencyActions }
  else
    let u := urgentData text age durationHours painScale severity
    if 0 < u.1 ∧ (3 : ℚ) ≤ (u.1 : ℚ) * sm.1 then
      { level := "Urgent", reasons := u.2 ++ sm.2, actions := urgentActions12 }
    else if 0 < u.1 ∧ (2 : ℚ) ≤ (u.1 : ℚ) * sm.1 then
      { level := "Urgent", reasons := u.2 ++ sm.2, actions := urgentActions24 }
    else fallThroughTriage text durationHours sm.2

/-! ## Condition suggestion engine (src/fine_tuned_detectors.py) -/

/-- One suggestion dict produced by the engine. -/
structure Sug where
  condition : String
  score : ℚ
  severity : String
  category : String
  confidence : String
deriving DecidableEq, Repr

/-- First-match association-list lookup (Python dict lookup by string key). -/
def lookupStr {β : Type} : List (String × β) → String → Option β
  | [], _ => none
  | (k, v) :: rest, key => if k = key then some v else lookupStr rest key

def SIMPLE_KEYWORD_MAPPINGS : List (String × List (String × ℚ)) := [
  ("headache", [("migraine", 0.85), ("tension headache", 0.80), ("cluster headache", 0.60), ("sinus headache", 0.50)]),
  ("fever", [("influenza", 0.80), ("pneumonia", 0.75), ("covid-19", 0.70), ("respiratory infection", 0.65), ("viral infection", 0.60)]),
  ("cough", [("bronchitis", 0.80), ("respiratory infection", 0.75), ("pneumonia", 0.70), ("asthma", 0.60), ("covid-19", 0.65)]),
  ("chest pain", [("heart attack", 0.90), ("angina", 0.80), ("heart failure", 0.70), ("pericarditis", 0.60), ("muscle strain", 0.50)]),
  ("nausea", [("gastroenteritis", 0.80), ("migraine", 0.70), ("food poisoning", 0.75), ("pregnancy", 0.60), ("motion sickness", 0.55)]),
  ("vomiting", [("gastroenteritis", 0.85), ("food poisoning", 0.80), ("migraine", 0.70), ("pregnancy", 0.65), ("appendicitis", 0.60)]),
  ("diarrhea", [("gastroenteritis", 0.85), ("food poisoning", 0.80), ("irritable bowel syndrome", 0.60), ("viral infection", 0.70), ("bacterial infection", 0.65)]),
  ("tired", [("fatigue", 0.90), ("anemia", 0.70), ("depression", 0.65), ("thyroid disorder", 0.60), ("sleep disorder", 0.55)]),
  ("fatigue", [("chronic fatigue syndrome", 0.80), ("anemia", 0.75), ("depression", 0.70), ("thyroid disorder", 0.65), ("fibromyalgia", 0.60)]),
  ("dizzy", [("vertigo", 0.85), ("low blood pressure", 0.70), ("inner ear disorder", 0.65), ("dehydration", 0.60), ("anxiety", 0.55)]),
  ("dizziness", [("vertigo", 0.90), ("low blood pressure", 0.75), ("inner ear disorder", 0.70), ("dehydration", 0.65), ("anxiety", 0.60)]),
  ("sore throat", [("pharyngitis", 0.85), ("strep throat", 0.80), ("tonsillitis", 0.75), ("viral infection", 0.70), ("allergic reaction", 0.50)]),
  ("back pain", [("muscle strain", 0.80), ("herniated disc", 0.70), ("arthritis", 0.65), ("kidney stones", 0.60), ("spinal stenosis", 0.55)]),
  ("stomach ache", [("gastroenteritis", 0.80), ("irritable bowel syndrome", 0.70), ("food poisoning", 0.75), ("gastritis", 0.65), ("appendicitis", 0.60)]),
  ("abdominal pain", [("appendicitis", 0.80), ("gastroenteritis", 0.75), ("gallstones", 0.70), ("irritable bowel syndrome", 0.65), ("kidney stones", 0.60)]),
  ("rash", [("allergic reaction", 0.80), ("contact dermatitis", 0.75), ("eczema", 0.70), ("psoriasis", 0.60), ("viral infection", 0.55)]),
  ("swollen", [("edema", 0.85), ("inflammation", 0.80), ("allergic reaction", 0.70), ("infection", 0.65), ("injury", 0.60)]),
  ("swelling", [("edema", 0.90), ("inflammation", 0.85), ("allergic reaction", 0.75), ("infection", 0.70), ("injury", 0.65)]),
  ("bleeding", [("hemorrhage", 0.85), ("injury", 0.80), ("ulcer", 0.70), ("hemorrhoids", 0.65), ("menstrual disorder", 0.60)]),
  ("itchy", [("allergic reaction", 0.80), ("eczema", 0.75), ("contact dermatitis", 0.70), ("psoriasis", 0.60), ("dry skin", 0.55)]),
  ("itching", [("allergic reaction", 0.85), ("eczema", 0.80), ("contact dermatitis", 0.75), ("psoriasis", 0.65), ("dry skin", 0.60)]),
  ("shortness of breath", [("asthma", 0.85), ("heart failure", 0.80), ("pneumonia", 0.75), ("anxiety", 0.70), ("copd", 0.65)]),
  ("breathing difficulty", [("asthma", 0.90), ("heart failure", 0.85), ("pneumonia", 0.80), ("anxiety", 0.75), ("copd", 0.70)]),
  ("joint pain", [("arthritis", 0.85), ("rheumatoid arthritis", 0.80), ("osteoarthritis", 0.75), ("gout", 0.70), ("fibromyalgia", 0.60)]),
  ("muscle pain", [("muscle strain", 0.85), ("fibromyalgia", 0.80), ("tendonitis", 0.70), ("overuse injury", 0.65), ("viral infection", 0.60)]),
  ("weakness", [("anemia", 0.80), ("stroke", 0.75), ("multiple sclerosis", 0.70), ("thyroid disorder", 0.65), ("dehydration", 0.60)]),
  ("confusion", [("stroke", 0.85), ("dementia", 0.80), ("dehydration", 0.70), ("low blood sugar", 0.65), ("concussion", 0.60)]),
  ("seizure", [("epilepsy", 0.95), ("febrile seizure", 0.80), ("brain injury", 0.70), ("stroke", 0.65), ("metabolic disorder", 0.60)]),
  ("fainting", [("syncope", 0.90), ("low blood pressure", 0.80), ("dehydration", 0.70), ("heart condition", 0.65), ("anxiety", 0.60)]),
  ("faint", [("syncope", 0.85), ("low blood pressure", 0.75), ("dehydration", 0.70), ("heart condition", 0.65), ("anxiety", 0.60)])]

def SYNONYM_EXPANSIONS : List (String × List String) := [
  ("headache", ["head pain", "head ache", "cranial pain", "cephalgia"]),
  ("fever", ["temperature", "high temp", "hot", "burning up", "febrile"]),
  ("cough", ["coughing", "hacking", "persistent cough"]),
  ("chest pain", ["chest pressure", "chest tightness", "chest discomfort"]),
  ("nausea", ["nauseous", "queasy", "sick feeling", "upset stomach"]),
  ("vomiting", ["vomit", "throwing up", "puking", "emesis"]),
  ("diarrhea", ["loose stools", "watery stools", "frequent bowel movements"]),
  ("tired", ["fatigue", "exhausted", "weary", "lethargic"]),
  ("dizzy", ["dizziness", "lightheaded", "vertigo", "unsteady"]),
  ("sore throat", ["throat pain", "pharyngitis", "throat irritation"]),
  ("back pain", ["backache", "spinal pain", "lumbar pain"]),
  ("stomach ache", ["abdominal pain", "belly pain", "tummy ache", "stomach pain"]),
  ("rash", ["skin rash", "redness", "skin irritation", "dermatitis"]),
  ("swollen", ["swelling", "puffiness", "inflammation", "edema"]),
  ("bleeding", ["blood", "hemorrhage", "blood loss"]),
  ("itchy", ["itching", "pruritus", "skin irritation"]),
  ("shortness of breath", ["breathing difficulty", "dyspnea", "can\x27t breathe"]),
  ("joint pain", ["arthralgia", "joint stiffness", "joint inflammation"]),
  ("muscle pain", ["myalgia", "muscle ache", "muscle soreness"]),
  ("weakness", ["muscle weakness", "generalized weakness", "fatigue"]),
  ("confusion", ["disorientation", "mental fog", "brain fog"]),
  ("seizure", ["convulsions", "uncontrollable shaking", "fits"]),
  ("fainting", ["faint", "passing out", "syncope", "blackout"])]

def EMERGENCY_KEYWORDS : List (String × String) := [
  ("chest pain", "heart attack"),
  ("shortness of breath", "respiratory emergency"),
  ("severe headache", "stroke"),
  ("confusion", "stroke"),
  ("seizure", "epilepsy"),
  ("fainting", "syncope"),
  ("severe bleeding", "hemorrhage"),
  ("unconscious", "emergency")]

/-- `_apply_age_adjustments`. -/
def apply_age_adjustments (condition : String) (score : ℚ) (age : Int) : ℚ :=
  if age < 18 then
    if condition ∈ ["febrile seizure", "croup", "hand foot mouth disease", "chickenpox"] then
      min 1 (score * 1.3)
    else if condition ∈ ["dementia", "alzheimer\x27s", "prostate cancer", "menopause"] then
      score * 0.5
    else score
  else if age ≥ 65 then
    if condition ∈ ["dementia", "alzheimer\x27s", "stroke", "pneumonia", "fall risk"] then
      min 1 (score * 1.2)
    else if condition ∈ ["croup", "hand foot mouth disease", "chickenpox", "measles"] then
      score * 0.3
    else score
  else score

/-- `_apply_duration_adjustments`. -/
def apply_duration_adjustments (condition : String) (score : ℚ) (durationHours : ℚ) : ℚ :=
  if durationHours ≤ 6 then
    if condition ∈ ["heart attack", "stroke", "appendicitis", "gallstones", "anaphylaxis"] then
      min 1 (score * 1.2)
    else if condition ∈ ["fibromyalgia", "irritable bowel syndrome", "chronic fatigue syndrome"] then
      score * 0.7
    else score
  else if durationHours > 168 then
    if condition ∈ ["fibromyalgia", "irritable bowel syndrome", "chronic fatigue syndrome", "arthritis"] then
      min 1 (score * 1.2)
    else if condition ∈ ["appendicitis", "gallstones", "food poisoning"] then
      score * 0.6
    else score
  else score

/-- `_apply_history_adjustments`. -/
def apply_history_adjustments (condition : String) (score : ℚ) (medicalHistory : String) : ℚ :=
  let hl := strLower medicalHistory
  if ["diabetes", "diabetic"].any (fun t => strContains hl t) ∧
      condition ∈ ["diabetes", "diabetic ketoacidosis", "hypoglycemia", "diabetic neuropathy"] then
    min 1 (score * 1.3)
  else if ["heart", "cardiac", "hypertension", "high blood pressure"].any (fun t => strContains hl t) ∧
      condition ∈ ["heart attack", "stroke", "heart failure", "angina"] then
    min 1 (score * 1.2)
  else if ["asthma", "copd", "lung"].any (fun t => strContains hl t) ∧
      condition ∈ ["asthma", "copd", "pneumonia", "bronchitis"] then
    min 1 (score * 1.2)
  else score

/-- `_get_condition_severity`. -/
def get_condition_severity (condition : String) : String :=
  if condition ∈ ["heart attack", "stroke", "anaphylaxis", "septic shock", "cardiac arrest",
      "respiratory emergency", "severe bleeding", "hemorrhage", "syncope"] then "emergency"
  else if condition ∈ ["pneumonia", "appendicitis", "gallstones", "kidney stones", "meningitis",
      "sepsis", "diabetic ketoacidosis", "hypoglycemia", "epilepsy"] then "urgent"
  else "routine"

def CONDITION_CATEGORIES : List (String × List String) := [
  ("cardiovascular", ["heart attack", "stroke", "angina", "heart failure", "syncope"]),
  ("respiratory", ["pneumonia", "asthma", "copd", "bronchitis", "respiratory infection"]),
  ("neurological", ["migraine", "tension headache", "epilepsy", "vertigo", "dementia"]),
  ("gastrointestinal", ["gastroenteritis", "food poisoning", "appendicitis", "gallstones", "irritable bowel syndrome"]),
  ("dermatological", ["allergic reaction", "eczema", "psoriasis", "contact dermatitis"]),
  ("musculoskeletal", ["arthritis", "muscle strain", "fibromyalgia", "tendonitis"]),
  ("endocrine", ["diabetes", "thyroid disorder", "diabetic ketoacidosis", "hypoglycemia"]),
  ("mental_health", ["depression", "anxiety", "chronic fatigue syndrome"]),
  ("infectious", ["influenza", "covid-19", "viral infection", "bacterial infection", "strep throat"])]

/-- `_get_condition_category`: first category (in table order) listing the
condition, else `"general"`. -/
def get_condition_category (condition : String) : String :=
  (CONDITION_CATEGORIES.filterMap
    (fun kv => if condition ∈ kv.2 then some kv.1 else none)).headD "general"

/-- Contextual adjustment pipeline shared by both suggestion paths: age,
then duration, then medical history (history only when truthy). -/
def applyContext (condition : String) (score : ℚ) (age : Option Int)
    (durationHours : Option ℚ) (medicalHistory : Option String) : ℚ :=
  let a1 := match age with
    | some a => apply_age_adjustments condition score a
    | none => score
  let a2 := match durationHours with
    | some d => apply_duration_adjustments condition a1 d
    | none => a1
  match medicalHistory with
  | some h => if h ≠ "" then apply_history_adjustments condition a2 h else a2
  | none => a2

/-- The short-input path's candidate list before its sort and cut: the
keyword-table entries (adjusted) followed by the emergency-keyword extras,
in source order. -/
def shortCandidates (text : String) (age : Option Int)
    (durationHours : Option ℚ) (medicalHistory : Option String) : List Sug :=
  let tl := pyStrip (strLower text)
  let base : List Sug :=
    match lookupStr SIMPLE_KEYWORD_MAPPINGS tl with
    | some conds =>
      conds.map (fun cb =>
        let adjusted := applyContext cb.1 cb.2 age durationHours medicalHistory
        { condition := cb.1
          score := min 1 adjusted
          severity := get_condition_severity cb.1
          category := get_condition_category cb.1
          confidence := if adjusted > 0.7 then "high" else "moderate" })
    | none => []
  let emerg : List Sug :=
    EMERGENCY_KEYWORDS.filterMap (fun ke =>
      if strContains tl ke.1 then
        some { condition := ke.2
               score := if strContains tl "severe" then 0.9 else 0.8
               severity := "emergency"
               category := "emergency"
               confidence := "high" }
      else none)
  base ++ emerg

/-- `_get_simple_keyword_suggestions`: exact key lookup, adjusted scores,
emergency-keyword extras, stable descending sort, first five. -/
def get_simple_keyword_suggestions (text : String) (age : Option Int)
    (durationHours : Option ℚ) (medicalHistory : Option String) : List Sug :=
  (sortScored Sug.score (shortCandidates text age durationHours medicalHistory)).take 5

/-- `" ".join`. -/
def joinSpace : List String → String
  | [] => ""
  | [x] => x
  | x :: rest => x ++ " " ++ joinSpace rest

/-- `_expand_synonyms`. -/
def expand_synonyms (text : String) : String :=
  let tl := strLower text
  SYNONYM_EXPANSIONS.foldl (fun acc kv =>
    if strContains tl kv.1 then acc ++ " " ++ joinSpace kv.2
    else if kv.2.any (fun syn => strContains tl syn) then acc ++ " " ++ kv.1
    else acc) tl

/-- Worker keeping the first occurrence of each string, in order
(`dict.fromkeys` de-duplication). -/
def pyUniqueAux (seen : List String) : List String → List String
  | [] => []
  | a :: l => if a ∈ seen then pyUniqueAux seen l else a :: pyUniqueAux (a :: seen) l

/-- The candidate-condition vocabulary: all conditions of the keyword table
in order, de-duplicated keeping first occurrences. -/
def uniqueConditions : List String :=
  pyUniqueAux []
    ((SIMPLE_KEYWORD_MAPPINGS.map (fun kv => kv.2.map Prod.fst)).foldr (fun a b => a ++ b) [])

/-- The classifier path's fully adjusted score for one returned
(label, score) pair: contextual adjustments then the emergency boost. -/
def classifierAdjusted (text : String) (age : Option Int) (durationHours : Option ℚ)
    (medicalHistory : Option String) (cs : String × ℚ) : ℚ :=
  let a1 := applyContext cs.1 cs.2 age durationHours medicalHistory
  if cs.1 ∈ ["heart attack", "stroke", "anaphylaxis"] ∧
      ["severe", "intense", "emergency"].any (fun t => strContains (strLower text) t) then
    min 1 (a1 * 1.3)
  else a1

/-- One suggestion of the classifier path, built from a returned
(label, score) pair: contextual adjustments, emergency boost, three-way
confidence label. -/
def classifierSug (text : String) (age : Option Int) (durationHours : Option ℚ)
    (medicalHistory : Option String) (cs : String × ℚ) : Sug :=
  { condition := cs.1
    score := min 1 (classifierAdjusted text age durationHours medicalHistory cs)
    severity := get_condition_severity cs.1
    category := get_condition_category cs.1
    confidence :=
      if classifierAdjusted text age durationHours medicalHistory cs > 0.7 then "high"
      else if classifierAdjusted text age durationHours medicalHistory cs > 0.5 then "moderate"
      else "low" }

/-- `suggest_fine_tuned_conditions`.  The zero-shot classifier is an
injected parameter `cls`: given the synonym-expanded text and the candidate
vocabulary it returns the zipped (label, score) lists; `none` models the
`transformers` pipeline being unavailable. -/
def suggest_fine_tuned_conditions (cls : Option (String → List String → List (String × ℚ)))
    (symptomText : String) (k : ℕ) (age : Option Int) (durationHours : Option ℚ)
    (medicalHistory : Option String) : List Sug :=
  let text := pyStrip symptomText
  if text = "" then []
  else
    let words := pySplit (strLower text)
    let simple := get_simple_keyword_suggestions text age durationHours medicalHistory
    if words.length ≤ 3 ∧ simple ≠ [] then simple.take k
    else
      match cls with
      | some f =>
        let out := f (expand_synonyms text) uniqueConditions
        let sugs := out.map (classifierSug text age durationHours medicalHistory)
        (sortScored Sug.score sugs).take k
      | none => simple.take k

/-- The candidate list and cut size of whichever path
`suggest_fine_tuned_conditions` takes: the returned suggestions are the
stable descending sort of the candidate list, truncated to the cut size. -/
def suggestCandidates (cls : Option (String → List String → List (String × ℚ)))
    (symptomText : String) (k : ℕ) (age : Option Int) (durationHours : Option ℚ)
    (medicalHistory : Option String) : List Sug × ℕ :=
  let text := pyStrip symptomText
  if text = "" then ([], k)
  else
    let words := pySplit (strLower text)
    let simple := get_simple_keyword_suggestions text age durationHours medicalHistory
    if words.length ≤ 3 ∧ simple ≠ [] then
      (shortCandidates text age durationHours medicalHistory, min 5 k)
    else
      match cls with
      | some f =>
        ((f (expand_synonyms text) uniqueConditions).map
          (classifierSug text age durationHours medicalHistory), k)
      | none => (shortCandidates text age durationHours medicalHistory, min 5 k)

def RECOMMENDATIONS : List (String × List (String × List String)) := [
  ("heart attack", [
    ("immediate_actions", [
      "🚨 Call emergency services immediately (911/999/112)",
      "🚨 Do not drive yourself - use emergency services",
      "🚨 Chew aspirin if available and not allergic",
      "🚨 Stay calm and rest while waiting for help"]),
    ("warning_signs", [
      "Chest pain or pressure lasting more than a few minutes",
      "Pain spreading to arm, neck, jaw, or back",
      "Shortness of breath with or without chest pain",
      "Nausea, vomiting, or cold sweats"])]),
  ("stroke", [
    ("immediate_actions", [
      "🚨 Call emergency services immediately",
      "🚨 Note the time symptoms started (critical for treatment)",
      "🚨 Do not give food or drink",
      "🚨 Keep person calm and comfortable"]),
    ("warning_signs", [
      "Facial drooping (one side of face droops)",
      "Arm weakness (one arm drifts down)",
      "Speech difficulty (slurred or strange speech)",
      "Time to call emergency services"])]),
  ("migraine", [
    ("immediate_actions", [
      "🌙 Rest in a dark, quiet room",
      "💊 Take migraine medication as prescribed",
      "🧊 Apply cold compress to head or neck",
      "💧 Stay hydrated"]),
    ("prevention", [
      "Identify and avoid triggers",
      "Maintain regular sleep schedule",
      "Eat regular meals, stay hydrated"])]),
  ("pneumonia", [
    ("immediate_actions", [
      "🏥 Seek medical attention within 24 hours",
      "💊 Take prescribed antibiotics as directed",
      "💧 Stay hydrated and get plenty of rest",
      "🌡️ Monitor fever and breathing"]),
    ("warning_signs", [
      "High fever (101°F/38.3°C or higher)",
      "Cough with yellow, green, or bloody mucus",
      "Shortness of breath or rapid breathing"])])]

/-- The generic fallback triple returned for conditions missing from the
static table. -/
def genericRecommendations : List (String × List String) := [
  ("immediate_actions", ["Consult with a healthcare provider"]),
  ("warning_signs", ["Monitor symptoms closely"]),
  ("prevention", ["Follow medical advice"])]

/-- `get_condition_recommendations`: static per-condition lookup with the
generic fallback. -/
def get_condition_recommendations (condition : String) : List (String × List String) :=
  (lookupStr RECOMMENDATIONS condition).getD genericRecommendations

/-! ## Feedback learning store (src/feedback_learning.py)

`pattern_weights` is a Python dict str→float.  When no weights file exists,
`_load_pattern_weights` returns a `defaultdict(float)` (missing keys read
as 0.0); when a file exists, `json.load` returns a plain dict and indexing
a missing key raises `KeyError`.  The `dflt` flag records which of the two
the table is; `+=` on a missing key is therefore fallible (`Except`). -/

/-- A Python str→float dict together with whether it is a
`defaultdict(float)` (`dflt = true`) or a plain dict. -/
structure WTable where
  entries : List (String × ℚ)
  dflt : Bool
deriving DecidableEq, Repr

/-- Dict assignment: overwrite in place, or append a new key at the end
(CPython dicts preserve insertion order). -/
def setEntry {β : Type} : List (String × β) → String → β → List (String × β)
  | [], k, v => [(k, v)]
  | (k', v') :: rest, k, v =>
    if k' = k then (k, v) :: rest else (k', v') :: setEntry rest k v

/-- `d.get(k, dflt)`. -/
def WTable.get (t : WTable) (k : String) (d : ℚ) : ℚ :=
  (lookupStr t.entries k).getD d

/-- `t[k] += d`: `KeyError` on a plain dict without the key. -/
def WTable.addTo (t : WTable) (k : String) (d : ℚ) : Except String WTable :=
  match lookupStr t.entries k with
  | some v => .ok ⟨setEntry t.entries k (v + d), t.dflt⟩
  | none =>
    if t.dflt then .ok ⟨setEntry t.entries k (0 + d), t.dflt⟩
    else .error "KeyError"

/-- `t[k] -= d`. -/
def WTable.subFrom (t : WTable) (k : String) (d : ℚ) : Except String WTable :=
  match lookupStr t.entries k with
  | some v => .ok ⟨setEntry t.entries k (v - d), t.dflt⟩
  | none =>
    if t.dflt then .ok ⟨setEntry t.entries k (0 - d), t.dflt⟩
    else .error "KeyError"

/-- The two-level condition-correction dict: symptom text → (condition →
float).  When loaded from JSON both levels are plain dicts; when fresh it is
`defaultdict(lambda: defaultdict(float))`. -/
structure CTable where
  entries : List (String × WTable)
  dflt : Bool
deriving DecidableEq, Repr

/-- `t[sym][cond] += d`: on a fresh outer defaultdict a missing symptom key
materialises an inner `defaultdict(float)`; on a plain dict it raises. -/
def CTable.addTo (t : CTable) (sym cond : String) (d : ℚ) : Except String CTable :=
  match lookupStr t.entries sym with
  | some inner =>
    match inner.addTo cond d with
    | .ok inner' => .ok ⟨setEntry t.entries sym inner', t.dflt⟩
    | .error e => .error e
  | none =>
    if t.dflt then
      match WTable.addTo ⟨[], true⟩ cond d with
      | .ok inner' => .ok ⟨setEntry t.entries sym inner', t.dflt⟩
      | .error e => .error e
    else .error "KeyError"

/-- `t[sym][cond] -= d`. -/
def CTable.subFrom (t : CTable) (sym cond : String) (d : ℚ) : Except String CTable :=
  match lookupStr t.entries sym with
  | some inner =>
    match inner.subFrom cond d with
    | .ok inner' => .ok ⟨setEntry t.entries sym inner', t.dflt⟩
    | .error e => .error e
  | none =>
    if t.dflt then
      match WTable.subFrom ⟨[], true⟩ cond d with
      | .ok inner' => .ok ⟨setEntry t.entries sym inner', t.dflt⟩
      | .error e => .error e
    else .error "KeyError"

def SYMPTOM_KEYWORDS : List String := [
  "pain", "ache", "hurt", "sore", "tender", "throbbing", "burning", "stabbing", "cramping",
  "fever", "temperature", "hot", "cold", "chills", "sweating", "rigors", "hyperthermia", "hypothermia",
  "nausea", "vomit", "sick", "queasy", "emesis", "regurgitation", "retching",
  "diarrhea", "loose", "watery", "constipation", "bowel", "stool",
  "headache", "migraine", "throbbing", "cephalgia", "cranial pain",
  "confusion", "memory", "forget", "disorientation", "cognitive", "mental fog",
  "seizure", "convulsion", "shaking", "epileptic", "tonic-clonic",
  "weakness", "fatigue", "tired", "exhausted", "lethargy", "malaise",
  "numbness", "tingling", "paresthesia", "loss of sensation",
  "chest", "heart", "breathing", "breath", "dyspnea", "shortness", "palpitations", "arrhythmia",
  "cough", "coughing", "phlegm", "sputum", "wheezing", "stridor", "barking",
  "rash", "itch", "red", "swollen", "inflammation", "lesion", "blister", "hives",
  "joint", "muscle", "bone", "stiffness", "swelling", "tenderness", "spasm",
  "urination", "urinary", "bladder", "kidney", "pelvic", "genital",
  "anxiety", "panic", "depression", "sad", "hopeless", "mood", "emotional",
  "bleeding", "blood", "hemorrhage", "unconscious", "faint", "collapse", "emergency"]

def BODY_PARTS : List String := [
  "head", "neck", "chest", "back", "stomach", "abdomen", "pelvis",
  "arm", "leg", "hand", "foot", "knee", "elbow", "shoulder", "hip",
  "throat", "ear", "eye", "nose", "mouth", "tongue", "lips",
  "heart", "lung", "liver", "kidney", "bladder", "brain", "spine"]

def TEMPORAL_PATTERNS : List String := [
  "sudden", "acute", "chronic", "persistent", "ongoing", "recurring",
  "intermittent", "episodic", "gradual", "rapid", "slow", "immediate"]

def SEVERITY_PATTERNS : List String := [
  "severe", "mild", "moderate", "intense", "unbearable", "excruciating",
  "worst", "terrible", "awful", "horrible", "extreme", "minimal"]

/-- `_extract_symptom_patterns` over an (already lowercased) text:
substring-matched keywords, prefixed body parts / temporal / severity
markers, and the five fixed symptom combinations, in source order.
("throbbing" occurs twice in the source keyword list, so a text containing
it contributes that token twice.) -/
def extract_symptom_patterns (symptoms : String) : List String :=
  let kw := SYMPTOM_KEYWORDS.filter (fun k => strContains symptoms k)
  let bp := BODY_PARTS.filterMap
    (fun p => if strContains symptoms p then some ("body_" ++ p) else none)
  let tp := TEMPORAL_PATTERNS.filterMap
    (fun p => if strContains symptoms p then some ("temporal_" ++ p) else none)
  let sp := SEVERITY_PATTERNS.filterMap
    (fun p => if strContains symptoms p then some ("severity_" ++ p) else none)
  let combos :=
    (if strContains symptoms "chest" ∧ strContains symptoms "pain" then ["chest_pain_combo"] else []) ++
    (if strContains symptoms "shortness" ∧ strContains symptoms "breath" then ["shortness_breath_combo"] else []) ++
    (if strContains symptoms "nausea" ∧ strContains symptoms "vomiting" then ["nausea_vomiting_combo"] else []) ++
    (if strContains symptoms "fever" ∧ strContains symptoms "cough" then ["fever_cough_combo"] else []) ++
    (if strContains symptoms "headache" ∧ strContains symptoms "nausea" then ["headache_nausea_combo"] else [])
  kw ++ bp ++ tp ++ sp ++ combos

/-- `_get_helpful_multiplier` (dict lookup with default 0.1). -/
def get_helpful_multiplier (helpfulScore : String) : ℚ :=
  if helpfulScore = "No" then -0.5
  else if helpfulScore = "Somewhat" then 0.1
  else if helpfulScore = "Yes" then 0.5
  else 0.1

/-- A prediction dict as consumed by the learning updates: only the
`condition` (and `score`) fields are read. -/
structure FBPred where
  condition : String
  score : ℚ
deriving DecidableEq, Repr

/-- One feedback event (the timestamp is irrelevant to the tables). -/
structure FeedbackEvent where
  symptoms : String
  predictions : List FBPred
  correctCondition : Option String
  helpfulScore : String
  comments : String
deriving DecidableEq, Repr

/-- `_update_pattern_weights`: per extracted token, +0.1·m / −0.05·m when
the correct condition is known (top shown suggestion right/wrong), else
+0.02·m.  Fails with `KeyError` on a plain dict missing the token. -/
def update_pattern_weights (w : WTable) (symptoms : String) (predictions : List FBPred)
    (correctCondition : Option String) (helpfulScore : String) : Except String WTable :=
  let sl := strLower symptoms
  let patterns := extract_symptom_patterns sl
  let m := get_helpful_multiplier helpfulScore
  patterns.foldlM (fun t pattern =>
    match correctCondition with
    | some cc =>
      if cc ≠ "" then
        let top : Option String :=
          match predictions with
          | [] => none
          | p :: _ => some p.condition
        if top = some cc then t.addTo pattern (0.1 * m)
        else t.subFrom pattern (0.05 * m)
      else t.addTo pattern (0.02 * m)
    | none => t.addTo pattern (0.02 * m)) w

/-- `_update_condition_corrections`: only when the correct condition is
known; per shown suggestion, +0.2·m on the correct condition, −0.1·m on the
others, keyed by the lowercased symptom text. -/
def update_condition_corrections (c : CTable) (symptoms : String) (predictions : List FBPred)
    (correctCondition : Option String) (helpfulScore : String) : Except String CTable :=
  let sl := strLower symptoms
  let m := get_helpful_multiplier helpfulScore
  match correctCondition with
  | some cc =>
    if cc ≠ "" then
      predictions.foldlM (fun t pred =>
        if pred.condition = cc then t.addTo sl pred.condition (0.2 * m)
        else t.subFrom sl pred.condition (0.1 * m)) c
    else .ok c
  | none => .ok c

/-- The learning store's state: the append-only event log, the two durable
table files (`none` = file absent), and the two in-memory tables. -/
structure FBState where
  log : List FeedbackEvent
  weightsFile : Option (List (String × ℚ))
  correctionsFile : Option (List (String × List (String × ℚ)))
  pattern_weights : WTable
  condition_corrections : CTable
deriving DecidableEq, Repr

/-- `_load_pattern_weights`: parse the file into a plain dict; a missing
file yields an empty `defaultdict(float)`. -/
def load_pattern_weights (file : Option (List (String × ℚ))) : WTable :=
  match file with
  | some l => ⟨l, false⟩
  | none => ⟨[], true⟩

/-- `_load_condition_corrections`: both dict levels plain when loaded. -/
def load_condition_corrections (file : Option (List (String × List (String × ℚ)))) : CTable :=
  match file with
  | some l => ⟨l.map (fun kv => (kv.1, ⟨kv.2, false⟩)), false⟩
  | none => ⟨[], true⟩

/-- `FeedbackLearningSystem.__init__`: load both tables from storage. -/
def feedback_system_init (weightsFile : Option (List (String × ℚ)))
    (correctionsFile : Option (List (String × List (String × ℚ)))) : FBState :=
  { log := []
    weightsFile := weightsFile
    correctionsFile := correctionsFile
    pattern_weights := load_pattern_weights weightsFile
    condition_corrections := load_condition_corrections correctionsFile }

/-- `json.dump(dict(self.pattern_weights))`: the serialised table. -/
def WTable.stored (t : WTable) : List (String × ℚ) := t.entries

/-- Serialised form of the two-level table. -/
def CTable.stored (t : CTable) : List (String × List (String × ℚ)) :=
  t.entries.map (fun kv => (kv.1, kv.2.entries))

/-- `record_feedback`: append the event to the log, then update and rewrite
the pattern-weight table, then update and rewrite the correction table
(the best-effort remote mirror does not touch this state).  A `KeyError`
in either update propagates. -/
def record_feedback (s : FBState) (ev : FeedbackEvent) : Except String FBState :=
  match update_pattern_weights s.pattern_weights ev.symptoms ev.predictions
      ev.correctCondition ev.helpfulScore with
  | .error e => .error e
  | .ok w' =>
    match update_condition_corrections s.condition_corrections ev.symptoms ev.predictions
        ev.correctCondition ev.helpfulScore with
    | .error e => .error e
    | .ok c' =>
      .ok { log := s.log ++ [ev]
            weightsFile := some w'.stored
            correctionsFile := some c'.stored
            pattern_weights := w'
            condition_corrections := c' }

/-- `get_pattern_weight`: total lookup with default 0.0. -/
def get_pattern_weight (w : WTable) (pattern : String) : ℚ :=
  (lookupStr w.entries pattern).getD 0

/-- `get_condition_correction`: total two-level lookup with default 0.0. -/
def get_condition_correction (c : CTable) (symptoms condition : String) : ℚ :=
  match lookupStr c.entries (strLower symptoms) with
  | some inner => (lookupStr inner.entries condition).getD 0
  | none => 0

/-- `|set(a.split()) & set(b.split())|`. -/
def countCommonTokens (a b : String) : ℕ :=
  ((pyUniqueAux [] (pySplit a)).filter (fun t => t ∈ pySplit b)).length

/-- The body of `_get_similarity_adjustment`'s scan over every stored
correction key, shared by the source translation and the spec model. -/
def similarityScan (c : CTable) (symptoms condition : String) : ℚ :=
  c.entries.foldl (fun (acc : ℚ) (kv : String × WTable) =>
    match lookupStr kv.2.entries condition with
    | some v =>
      if v > 0.1 then
        let common := countCommonTokens symptoms kv.1
        if common > 0 then acc + 0.05 * (common : ℚ) else acc
      else acc
    | none => acc) (0 : ℚ)

/-- `_get_similarity_adjustment` as written: the scan only runs when the
condition name itself occurs as a stored symptom-text key. -/
def get_similarity_adjustment (c : CTable) (symptoms condition : String) : ℚ :=
  let base := if (lookupStr c.entries condition).isSome then similarityScan c symptoms condition else 0
  min 0.2 base

/-- The similarity bonus as the spec describes it (claim C7): scan all
previously-seen correction keys unconditionally, cap at 0.2. -/
def similarity_bonus_spec (c : CTable) (symptoms condition : String) : ℚ :=
  min 0.2 (similarityScan c symptoms condition)

/-- `_get_confidence_adjustment`. -/
def get_confidence_adjustment (w : WTable) (symptoms condition : String) : ℚ :=
  let patterns := extract_symptom_patterns symptoms
  let strong := patterns.filter (fun p => get_pattern_weight w p > 0.2)
  let base : ℚ := if strong.length > 0 then 0 + 0.1 * (strong.length : ℚ) else 0
  let base2 :=
    if condition ∈ ["heart attack", "stroke", "anaphylaxis", "septic shock"] ∧
        ["severe", "intense", "unbearable", "emergency", "urgent"].any (fun t => strContains symptoms t) then
      base + 0.15
    else base
  min 0.2 base2

/-- `s.startswith(pre)`. -/
def strStarts (s pre : String) : Bool := (dropMatch pre.data s.data).isSome

/-- `s.endswith(suf)`. -/
def strEnds (s suf : String) : Bool := (dropMatch suf.data.reverse s.data.reverse).isSome

/-- A prediction dict as passed to `apply_learning_adjustments`: a
`condition`, a `score`, and whatever other fields the caller's dicts carry
(`extra`, e.g. severity/category/confidence from the suggestion engine). -/
structure AdjPred where
  condition : String
  score : ℚ
  extra : List (String × String)
deriving DecidableEq, Repr

/-- The summed adjustment of `apply_learning_adjustments` for one
condition: scaled pattern weights + condition correction + similarity
bonus + confidence bonus. -/
def totalAdjustment (w : WTable) (c : CTable) (symptomsLower condition : String) : ℚ :=
  let patterns := extract_symptom_patterns symptomsLower
  let patAdj := patterns.foldl (fun acc p =>
    let weight := get_pattern_weight w p
    if strStarts p "severity_" then acc + weight * 0.15
    else if strStarts p "temporal_" then acc + weight * 0.12
    else if strEnds p "_combo" then acc + weight * 0.2
    else acc + weight * 0.1) 0
  patAdj + get_condition_correction c symptomsLower condition
    + get_similarity_adjustment c symptomsLower condition
    + get_confidence_adjustment w symptomsLower condition

/-- `apply_learning_adjustments`: rebuild each prediction as a fresh
two-field dict with the clamped adjusted score, then stable-sort descending
by score. -/
def apply_learning_adjustments (w : WTable) (c : CTable) (symptoms : String)
    (predictions : List AdjPred) : List AdjPred :=
  let sl := strLower symptoms
  let adjusted := predictions.map (fun pred =>
    { condition := pred.condition
      score := max 0 (min 1 (pred.score + totalAdjustment w c sl pred.condition))
      extra := ([] : List (String × String)) })
  sortScored AdjPred.score adjusted

/-! ## Properties of the stable sort -/

theorem mem_insertScored {α : Type} (sc : α → ℚ) (p : α) (l : List α) (x : α) :
    x ∈ insertScored sc p l ↔ x = p ∨ x ∈ l := by
  induction l with
  | nil => simp [insertScored]
  | cons q l ih =>
      simp only [insertScored]
      split
      · simp [or_comm, or_assoc, or_left_comm]
      · simp [ih, or_comm, or_assoc, or_left_comm]

theorem insertScored_perm {α : Type} (sc : α → ℚ) (p : α) (l : List α) :
    List.Perm (insertScored sc p l) (p :: l) := by
  induction l with
  | nil => simp [insertScored]
  | cons q l ih =>
      simp only [insertScored]
      split
      · exact List.Perm.refl _
      · exact (List.Perm.cons q ih).trans (List.Perm.swap p q l)

theorem sortScored_perm {α : Type} (sc : α → ℚ) (l : List α) :
    List.Perm (sortScored sc l) l := by
  induction l with
  | nil => simp [sortScored]
  | cons p l ih =>
      exact (insertScored_perm sc p (sortScored sc l)).trans (List.Perm.cons p ih)

theorem pairwise_insertScored {α : Type} (sc : α → ℚ) (p : α) (l : List α)
    (h : l.Pairwise (fun a b => sc b ≤ sc a)) :
    (insertScored sc p l).Pairwise (fun a b => sc b ≤ sc a) := by
  induction l with
  | nil => simp [insertScored]
  | cons q l ih =>
      simp only [insertScored]
      rcases h with _ | ⟨hq, hl⟩
      split
      · refine List.Pairwise.cons ?_ (List.Pairwise.cons hq hl)
        intro x hx
        rcases List.mem_cons.mp hx with rfl | hx
        · assumption
        · exact le_trans (hq x hx) (by assumption)
      · refine List.Pairwise.cons ?_ (ih hl)
        intro x hx
        rcases (mem_insertScored sc p l x).mp hx with rfl | hx
        · exact le_of_lt (lt_of_not_le (by assumption))
        · exact hq x hx

theorem sortScored_sorted {α : Type} (sc : α → ℚ) (l : List α) :
    (sortScored sc l).Pairwise (fun a b => sc b ≤ sc a) := by
  induction l with
  | nil => simp [sortScored]
  | cons p l ih => exact pairwise_insertScored sc p (sortScored sc l) ih

theorem filter_insertScored_ne {α : Type} (sc : α → ℚ) (p : α) (l : List α)
    (c : ℚ) (h : sc p ≠ c) :
    (insertScored sc p l).filter (fun x => decide (sc x = c)) =
      l.filter (fun x => decide (sc x = c)) := by
  induction l with
  | nil => simp [insertScored, h]
  | cons q l ih =>
      simp only [insertScored]
      split
      · simp [List.filter, h]
      · simp only [List.filter]
        cases hq : decide (sc q = c) <;> simp [ih]

theorem filter_insertScored_eq {α : Type} (sc : α → ℚ) (p : α) (l : List α)
    (c : ℚ) (h : sc p = c) :
    (insertScored sc p l).filter (fun x => decide (sc x = c)) =
      p :: l.filter (fun x => decide (sc x = c)) := by
  induction l with
  | nil => simp [insertScored, h]
  | cons q l ih =>
      simp only [insertScored]
      split
      · simp [List.filter, h]
      · rename_i hle
        have hq : ¬ (sc q = c) := fun hc => hle (le_of_eq (hc.trans h.symm))
        simp [List.filter, hq, ih]

/-- Stability of the sort: for each score value, the subsequence of entries
carrying that score is exactly the input's subsequence, in input order. -/
theorem sortScored_stable {α : Type} (sc : α → ℚ) (l : List α) (c : ℚ) :
    (sortScored sc l).filter (fun x => decide (sc x = c)) =
      l.filter (fun x => decide (sc x = c)) := by
  induction l with
  | nil => simp [sortScored]
  | cons p l ih =>
      simp only [sortScored]
      by_cases h : sc p = c
      · rw [filter_insertScored_eq sc p _ c h, ih]
        simp [List.filter, h]
      · rw [filter_insertScored_ne sc p _ c h, ih]
        simp [List.filter, h]

/-! ## Triage: step-1 reason shapes

Every context (step-1) reason string starts with a character other than
`'U'`, while the urgent-scan reason `"Urgent concern detected"` starts with
`'U'`; this separates the two reason families in the fall-through case. -/

theorem ageAdjust_reasons_head (age : Option Int) :
    ∀ r ∈ (ageAdjust age).2, r.data.head? ≠ some 'U' := by
  intro r hr
  cases age with
  | none => simp [ageAdjust] at hr
  | some a =>
      simp only [ageAdjust] at hr
      split_ifs at hr <;> simp at hr <;> subst hr <;> decide

theorem durationAdjust_reasons_head (d : Option ℚ) :
    ∀ r ∈ (durationAdjust d).2, r.data.head? ≠ some 'U' := by
  intro r hr
  cases d with
  | none => simp [durationAdjust] at hr
  | some d =>
      simp only [durationAdjust] at hr
      split_ifs at hr <;> simp at hr <;> subst hr <;> decide

theorem historyAdjust_reasons_sub (h : Option String) :
    (historyAdjust h).2 ⊆ ["Cardiovascular risk factors", "Immunocompromised status - high risk",
      "Pregnancy - higher risk", "Neurological history", "Respiratory history", "Organ dysfunction"] := by
  cases h with
  | none => simp [historyAdjust]
  | some hs =>
      by_cases hhs : hs = "" <;> simp only [historyAdjust, hhs, if_pos, if_neg, if_true, if_false]
      · simp
      · split_ifs <;> simp_all <;> decide

theorem historyAdjust_reasons_head (h : Option String) :
    ∀ r ∈ (historyAdjust h).2, r.data.head? ≠ some 'U' := by
  intro r hr
  have := historyAdjust_reasons_sub h hr
  simp at this
  rcases this with rfl | rfl | rfl | rfl | rfl | rfl <;> decide

theorem head_ne_of_head_eq {l : List Char} {c c' : Char} (h : l.head? = some c)
    (hne : c ≠ c') : l.head? ≠ some c' := by
  rw [h]
  simp [hne]

theorem painAdjust_reasons_head (p : Option Int) :
    ∀ r ∈ (painAdjust p).2, r.data.head? ≠ some 'U' := by
  intro r hr
  cases p with
  | none => simp [painAdjust] at hr
  | some p =>
      simp only [painAdjust] at hr
      split_ifs at hr <;> simp at hr <;> subst hr <;>
        exact head_ne_of_head_eq rfl (by decide)

theorem severityAdjust_reasons_head (s : Option String) :
    ∀ r ∈ (severityAdjust s).2, r.data.head? ≠ some 'U' := by
  intro r hr
  cases s with
  | none => simp [severityAdjust] at hr
  | some s =>
      simp only [severityAdjust] at hr
      split_ifs at hr <;> simp at hr <;> subst hr <;> decide

theorem stepOne_reasons_head (age : Option Int) (dur : Option ℚ) (hist : Option String)
    (pain : Option Int) (sev : Option String) :
    ∀ r ∈ (stepOne age dur hist pain sev).2, r.data.head? ≠ some 'U' := by
  intro r hr
  simp only [stepOne, List.mem_append] at hr
  rcases hr with (((h | h) | h) | h) | h
  · exact ageAdjust_reasons_head age r h
  · exact durationAdjust_reasons_head dur r h
  · exact historyAdjust_reasons_head hist r h
  · exact painAdjust_reasons_head pain r h
  · exact severityAdjust_reasons_head sev r h

theorem fallThrough_reasons_head (text : String) (dur : Option ℚ) (cs : List String)
    (hcs : ∀ r ∈ cs, r.data.head? ≠ some 'U') :
    ∀ r ∈ (fallThroughTriage text dur cs).reasons, r.data.head? ≠ some 'U' := by
  intro r hr
  unfold fallThroughTriage at hr
  split_ifs at hr <;> simp only [List.mem_cons] at hr <;>
    (rcases hr with rfl | hr
     · decide
     · exact hcs r hr)

/-! ## Claim C1 -/

/-- Claim C1: whenever some configured Emergency regex matches the
(stripped) symptom text, `compute_triage` returns the Emergency result —
level "Emergency" with the fixed emergency action list and reasons made of
one red-flag string per matching pattern followed by the step-1 context
reasons — for all values of age, duration, history, pain scale and
severity; the urgent scan, urgent-count thresholds and urgency multiplier
play no part in the returned result. -/
theorem emergency_short_circuit (symptomText : String) (age : Option Int)
    (durationHours : Option ℚ) (medicalHistory : Option String) (painScale : Option Int)
    (severity : Option String)
    (h : EMERGENCY_PATTERNS.any (fun p => patMatch p (pyStrip symptomText)) = true) :
    compute_triage symptomText age durationHours medicalHistory painScale severity =
      { level := "Emergency"
        reasons := emergencyReasons (pyStrip symptomText) ++
          (stepOne age durationHours medicalHistory painScale severity).2
        actions := emergencyActions } := by
  simp only [compute_triage, h, if_true]

/-- Witness for C1 at the concrete text `"chest pain"`. -/
theorem emergency_short_circuit_witness :
    EMERGENCY_PATTERNS.any (fun p => patMatch p (pyStrip "chest pain")) = true ∧
    compute_triage "chest pain" none none none none none =
      { level := "Emergency"
        reasons := emergencyReasons (pyStrip "chest pain") ++ (stepOne none none none none none).2
        actions := emergencyActions } :=
  ⟨by decide, emergency_short_circuit "chest pain" none none none none none (by decide)⟩

/-! ## Claim C4 -/

/-- Claim C4: when no Emergency regex matches and the urgent count `n`
(urgent-regex matches plus the context extras) is positive, the result is
Urgent with the "within 12 hours" actions when `n·multiplier ≥ 3`, Urgent
with the "within 24 hours" actions when `2 ≤ n·multiplier < 3`, and
otherwise the call falls through to the Routine/Self-care tail, whose
reasons contain none of the collected urgent reasons (in particular not
"Urgent concern detected"). -/
theorem urgent_threshold_classification (symptomText : String) (age : Option Int)
    (durationHours : Option ℚ) (medicalHistory : Option String) (painScale : Option Int)
    (severity : Option String) (n : ℕ) (rs : List String) (m : ℚ) (cs : List String)
    (hE : EMERGENCY_PATTERNS.any (fun p => patMatch p (pyStrip symptomText)) = false)
    (hU : urgentData (pyStrip symptomText) age durationHours painScale severity = (n, rs))
    (hS : stepOne age durationHours medicalHistory painScale severity = (m, cs))
    (hn : 0 < n) :
    ((3 : ℚ) ≤ (n : ℚ) * m →
      compute_triage symptomText age durationHours medicalHistory painScale severity =
        { level := "Urgent", reasons := rs ++ cs, actions := urgentActions12 })
    ∧ ((n : ℚ) * m < 3 → (2 : ℚ) ≤ (n : ℚ) * m →
      compute_triage symptomText age durationHours medicalHistory painScale severity =
        { level := "Urgent", reasons := rs ++ cs, actions := urgentActions24 })
    ∧ ((n : ℚ) * m < 2 →
      compute_triage symptomText age durationHours medicalHistory painScale severity =
        fallThroughTriage (pyStrip symptomText) durationHours cs
      ∧ "Urgent concern detected" ∉
          (compute_triage symptomText age durationHours medicalHistory painScale severity).reasons) := by
  have hrw : compute_triage symptomText age durationHours medicalHistory painScale severity =
      (if 0 < n ∧ (3 : ℚ) ≤ (n : ℚ) * m then
        { level := "Urgent", reasons := rs ++ cs, actions := urgentActions12 }
      else if 0 < n ∧ (2 : ℚ) ≤ (n : ℚ) * m then
        { level := "Urgent", reasons := rs ++ cs, actions := urgentActions24 }
      else fallThroughTriage (pyStrip symptomText) durationHours cs) := by
    simp only [compute_triage, hE, Bool.false_eq_true, if_false, hU, hS]
  refine ⟨?_, ?_, ?_⟩
  · intro h3
    rw [hrw, if_pos ⟨hn, h3⟩]
  · intro h3 h2
    rw [hrw, if_neg (fun hc => absurd hc.2 (not_le.mpr h3)), if_pos ⟨hn, h2⟩]
  · intro h2
    have hfall : compute_triage symptomText age durationHours medicalHistory painScale severity =
        fallThroughTriage (pyStrip symptomText) durationHours cs := by
      rw [hrw, if_neg (fun hc => absurd hc.2 (not_le.mpr (h2.trans (by norm_num)))),
        if_neg (fun hc => absurd hc.2 (not_le.mpr h2))]
    refine ⟨hfall, ?_⟩
    rw [hfall]
    intro hmem
    have hcs : ∀ r ∈ cs, r.data.head? ≠ some 'U' := by
      intro r hr
      have := stepOne_reasons_head age durationHours medicalHistory painScale severity r
      rw [hS] at this
      exact this hr
    exact fallThrough_reasons_head (pyStrip symptomText) durationHours cs hcs
      "Urgent concern detected" hmem (by decide)

/-- Witness for C4's 12-hour branch at the concrete text
`"fever dizziness abdominal pain"`, which matches three urgent patterns and
no emergency pattern, with no optional context (multiplier 1). -/
theorem urgent_threshold_classification_witness :
    EMERGENCY_PATTERNS.any (fun p => patMatch p (pyStrip "fever dizziness abdominal pain")) = false
    ∧ 0 < 3
    ∧ compute_triage "fever dizziness abdominal pain" none none none none none =
      { level := "Urgent"
        reasons := ["Urgent concern detected", "Urgent concern detected", "Urgent concern detected"] ++ []
        actions := urgentActions12 } :=
  ⟨by decide, by decide,
    (urgent_threshold_classification "fever dizziness abdominal pain" none none none none none
      3 ["Urgent concern detected", "Urgent concern detected", "Urgent concern detected"] 1 []
      (by decide) (by decide) (by with_unfolding_all decide) (by decide)).1
      (by with_unfolding_all decide)⟩

/-! ## Claim C5 -/

/-- Every path of `suggest_fine_tuned_conditions` returns the stable
descending sort of its candidate list cut to at most `k` entries. -/
theorem suggest_eq_take (cls : Option (String → List String → List (String × ℚ)))
    (symptomText : String) (k : ℕ) (age : Option Int) (durationHours : Option ℚ)
    (medicalHistory : Option String) :
    suggest_fine_tuned_conditions cls symptomText k age durationHours medicalHistory =
      (sortScored Sug.score (suggestCandidates cls symptomText k age durationHours medicalHistory).1).take
        (suggestCandidates cls symptomText k age durationHours medicalHistory).2
    ∧ (suggestCandidates cls symptomText k age durationHours medicalHistory).2 ≤ k := by
  simp only [suggest_fine_tuned_conditions, suggestCandidates, get_simple_keyword_suggestions]
  by_cases he : pyStrip symptomText = ""
  · simp [he, sortScored]
  · simp only [if_neg he]
    by_cases hcond : (pySplit (strLower (pyStrip symptomText))).length ≤ 3 ∧
        (sortScored Sug.score
          (shortCandidates (pyStrip symptomText) age durationHours medicalHistory)).take 5 ≠ []
    · refine ⟨?_, ?_⟩ <;> simp only [if_pos hcond]
      · rw [List.take_take, Nat.min_comm]
      · exact Nat.min_le_right 5 k
    · refine ⟨?_, ?_⟩ <;> simp only [if_neg hcond] <;> cases cls with
      | some f => first
        | rfl
        | exact le_refl k
      | none => first
        | rw [List.take_take, Nat.min_comm]
        | exact Nat.min_le_right 5 k

/-- Claim C5: for every text, `k` and optional context, the suggestion list
has length at most `k`, its scores are non-increasing, and it is the
truncation of a stable descending sort of the path's candidate list (for
each score value, the candidates carrying that score are kept in their
original table/model order). -/
theorem suggest_topk_sorted_stable (cls : Option (String → List String → List (String × ℚ)))
    (symptomText : String) (k : ℕ) (age : Option Int) (durationHours : Option ℚ)
    (medicalHistory : Option String) :
    suggest_fine_tuned_conditions cls symptomText k age durationHours medicalHistory =
      (sortScored Sug.score (suggestCandidates cls symptomText k age durationHours medicalHistory).1).take
        (suggestCandidates cls symptomText k age durationHours medicalHistory).2
    ∧ (suggest_fine_tuned_conditions cls symptomText k age durationHours medicalHistory).length ≤ k
    ∧ (suggest_fine_tuned_conditions cls symptomText k age durationHours medicalHistory).Pairwise
        (fun x y => y.score ≤ x.score)
    ∧ ∀ c : ℚ,
        (sortScored Sug.score (suggestCandidates cls symptomText k age durationHours medicalHistory).1).filter
            (fun x => decide (x.score = c)) =
          (suggestCandidates cls symptomText k age durationHours medicalHistory).1.filter
            (fun x => decide (x.score = c)) := by
  obtain ⟨hEq, hle⟩ := suggest_eq_take cls symptomText k age durationHours medicalHistory
  refine ⟨hEq, ?_, ?_, fun c => sortScored_stable _ _ c⟩
  · rw [hEq]
    exact le_trans (List.length_take_le _ _) hle
  · rw [hEq]
    exact (sortScored_sorted _ _).sublist (List.take_sublist _ _)

/-! ## Claim C6 -/

/-- Confidence-label shape of every short-path candidate: "high" exactly
above score 0.7, otherwise "moderate" — the short path never labels "low". -/
theorem conf_spec_of_mem_shortCandidates {text : String} {age : Option Int}
    {dur : Option ℚ} {hist : Option String} {p : Sug}
    (hp : p ∈ shortCandidates text age dur hist) :
    (p.confidence = "high" ↔ (0.7 : ℚ) < p.score)
    ∧ (p.confidence = "low" → p.score ≤ (0.5 : ℚ))
    ∧ (p.confidence = "high" ∨ p.confidence = "moderate" ∨ p.confidence = "low") := by
  simp only [shortCandidates, List.mem_append] at hp
  rcases hp with hp | hp
  · cases hlk : lookupStr SIMPLE_KEYWORD_MAPPINGS (pyStrip (strLower text)) with
    | none => rw [hlk] at hp; simp at hp
    | some conds =>
        rw [hlk] at hp
        simp only [List.mem_map] at hp
        obtain ⟨cb, _, rfl⟩ := hp
        dsimp only
        by_cases hadj : applyContext cb.1 cb.2 age dur hist > 0.7
        · rw [if_pos hadj]
          exact ⟨⟨fun _ => lt_min (by norm_num) hadj, fun _ => rfl⟩,
            fun hc => absurd hc (by decide), Or.inl rfl⟩
        · rw [if_neg hadj]
          exact ⟨⟨fun hc => absurd hc (by decide),
              fun hlt => absurd (lt_of_lt_of_le hlt (min_le_right _ _)) hadj⟩,
            fun hc => absurd hc (by decide), Or.inr (Or.inl rfl)⟩
  · simp only [List.mem_filterMap] at hp
    obtain ⟨ke, _, hif⟩ := hp
    by_cases hk : strContains (pyStrip (strLower text)) ke.1 = true
    · rw [if_pos hk] at hif
      obtain rfl := Option.some.inj hif
      dsimp only
      refine ⟨⟨fun _ => ?_, fun _ => rfl⟩, fun hc => absurd hc (by decide), Or.inl rfl⟩
      split <;> norm_num
    · rw [if_neg hk] at hif
      exact absurd hif (by simp)

/-- Confidence-label shape of every classifier-path suggestion: the full
three-way rule. -/
theorem conf_spec_of_classifierSug (text : String) (age : Option Int) (dur : Option ℚ)
    (hist : Option String) (cs : String × ℚ) :
    ((classifierSug text age dur hist cs).confidence = "high" ↔
        (0.7 : ℚ) < (classifierSug text age dur hist cs).score)
    ∧ ((classifierSug text age dur hist cs).confidence = "low" →
        (classifierSug text age dur hist cs).score ≤ (0.5 : ℚ))
    ∧ ((classifierSug text age dur hist cs).confidence = "high" ∨
        (classifierSug text age dur hist cs).confidence = "moderate" ∨
        (classifierSug text age dur hist cs).confidence = "low") := by
  unfold classifierSug
  dsimp only
  by_cases h7 : classifierAdjusted text age dur hist cs > 0.7
  · rw [if_pos h7]
    exact ⟨⟨fun _ => lt_min (by norm_num) h7, fun _ => rfl⟩,
      fun hc => absurd hc (by decide), Or.inl rfl⟩
  · rw [if_neg h7]
    by_cases h5 : classifierAdjusted text age dur hist cs > 0.5
    · rw [if_pos h5]
      exact ⟨⟨fun hc => absurd hc (by decide),
          fun hlt => absurd (lt_of_lt_of_le hlt (min_le_right _ _)) h7⟩,
        fun hc => absurd hc (by decide), Or.inr (Or.inl rfl)⟩
    · rw [if_neg h5]
      exact ⟨⟨fun hc => absurd hc (by decide),
          fun hlt => absurd (lt_of_lt_of_le hlt (min_le_right _ _)) h7⟩,
        fun _ => le_trans (min_le_right _ _) (not_lt.mp h5),
        Or.inr (Or.inr rfl)⟩

/-- Counterexample to claim C6 as stated: on the short-input path the text
`"headache"` yields the suggestion ("sinus headache", score 0.5) labelled
"moderate", although its score is not greater than 0.5 (the claim demands
"low" there). -/
theorem confidence_label_counterexample :
    ({ condition := "sinus headache", score := 0.5, severity := "routine",
       category := "general", confidence := "moderate" } : Sug) ∈
      suggest_fine_tuned_conditions none "headache" 5 none none none
    ∧ ¬ ((0.5 : ℚ) < (0.5 : ℚ)) := by
  constructor
  · with_unfolding_all decide
  · with_unfolding_all decide

/-- Claim C6, amended: every returned suggestion is labelled "high" exactly
when its score exceeds 0.7; "low" implies score ≤ 0.5 and only occurs on
the classifier path — the short keyword path labels every sub-0.7
suggestion "moderate", including scores not above 0.5. -/
theorem confidence_label_amended (cls : Option (String → List String → List (String × ℚ)))
    (symptomText : String) (k : ℕ) (age : Option Int) (durationHours : Option ℚ)
    (medicalHistory : Option String) (p : Sug)
    (hp : p ∈ suggest_fine_tuned_conditions cls symptomText k age durationHours medicalHistory) :
    (p.confidence = "high" ↔ (0.7 : ℚ) < p.score)
    ∧ (p.confidence = "low" → p.score ≤ (0.5 : ℚ))
    ∧ (p.confidence = "high" ∨ p.confidence = "moderate" ∨ p.confidence = "low") := by
  have hmem : p ∈ (suggestCandidates cls symptomText k age durationHours medicalHistory).1 := by
    obtain ⟨hEq, _⟩ := suggest_eq_take cls symptomText k age durationHours medicalHistory
    rw [hEq] at hp
    have h1 := (List.take_sublist _ _).subset hp
    exact (sortScored_perm _ _).mem_iff.mp h1
  revert hmem
  simp only [suggestCandidates]
  by_cases he : pyStrip symptomText = ""
  · intro hmem
    simp [he] at hmem
  · simp only [if_neg he]
    by_cases hcond : (pySplit (strLower (pyStrip symptomText))).length ≤ 3 ∧
        get_simple_keyword_suggestions (pyStrip symptomText) age durationHours medicalHistory ≠ []
    · simp only [if_pos hcond]
      exact conf_spec_of_mem_shortCandidates
    · simp only [if_neg hcond]
      cases cls with
      | some f =>
          intro hmem
          simp only [List.mem_map] at hmem
          obtain ⟨cs0, _, rfl⟩ := hmem
          exact conf_spec_of_classifierSug _ _ _ _ cs0
      | none => exact conf_spec_of_mem_shortCandidates

/-- Witness for the amended C6 at the top "headache" suggestion. -/
theorem confidence_label_amended_witness :
    ({ condition := "migraine", score := 0.85, severity := "routine",
       category := "neurological", confidence := "high" } : Sug) ∈
      suggest_fine_tuned_conditions none "headache" 5 none none none
    ∧ ((("high" : String) = "high" ↔ (0.7 : ℚ) < (0.85 : ℚ))
       ∧ (("high" : String) = "low" → (0.85 : ℚ) ≤ (0.5 : ℚ))
       ∧ (("high" : String) = "high" ∨ ("high" : String) = "moderate" ∨ ("high" : String) = "low")) :=
  ⟨by with_unfolding_all decide,
   confidence_label_amended none "headache" 5 none none none
     { condition := "migraine", score := 0.85, severity := "routine",
       category := "neurological", confidence := "high" }
     (by with_unfolding_all decide)⟩

/-! ## Claim C7 -/

/-- Counterexample to claim C7 as stated: with one stored correction key
"fever headache" carrying a 0.5 correction for "migraine", and current text
"fever", the claim's unconditional scan would award 0.05 for the shared
token, but `_get_similarity_adjustment` returns 0 because "migraine" is not
itself a stored symptom-text key. -/
theorem similarity_guard_counterexample :
    get_similarity_adjustment ⟨[("fever headache", ⟨[("migraine", 0.5)], false⟩)], false⟩
        "fever" "migraine" ≠
      similarity_bonus_spec ⟨[("fever headache", ⟨[("migraine", 0.5)], false⟩)], false⟩
        "fever" "migraine" := by
  with_unfolding_all decide

/-- Claim C7, amended: the similarity bonus equals the spec's capped scan
only when the condition name itself occurs as a stored correction key;
otherwise it is 0. -/
theorem similarity_guard_amended (c : CTable) (symptoms condition : String) :
    get_similarity_adjustment c symptoms condition =
      if (lookupStr c.entries condition).isSome = true then
        similarity_bonus_spec c symptoms condition
      else 0 := by
  unfold get_similarity_adjustment similarity_bonus_spec
  by_cases h : (lookupStr c.entries condition).isSome = true
  · rw [if_pos h, if_pos h]
  · rw [if_neg h, if_neg h]
    exact min_eq_right (by norm_num)

/-! ## Claim C8 -/

/-- Counterexample to claim C8 as stated: `apply_learning_adjustments`
rebuilds each prediction as a fresh two-field dict, so a prediction that
arrived with a `severity` field leaves without it — the non-score fields
are dropped, not preserved. -/
theorem apply_drops_fields_counterexample :
    apply_learning_adjustments ⟨[], true⟩ ⟨[], true⟩ "rash"
        [{ condition := "eczema", score := 0.7, extra := [("severity", "routine")] }] =
      [{ condition := "eczema", score := 0.7, extra := [] }]
    ∧ ([("severity", "routine")] : List (String × String)) ≠ [] := by
  exact ⟨by with_unfolding_all decide, by decide⟩

/-- Claim C8, amended: the output is a permutation of the input with each
entry rebuilt as (condition, clamped adjusted score) — every other field is
dropped — sorted by non-increasing adjusted score, with the length (one
entry per input entry) preserved. -/
theorem apply_adjustments_amended (w : WTable) (c : CTable) (symptoms : String)
    (predictions : List AdjPred) :
    (apply_learning_adjustments w c symptoms predictions).Perm
      (predictions.map (fun pred =>
        { condition := pred.condition
          score := max 0 (min 1 (pred.score + totalAdjustment w c (strLower symptoms) pred.condition))
          extra := ([] : List (String × String)) }))
    ∧ (apply_learning_adjustments w c symptoms predictions).Pairwise
        (fun x y => y.score ≤ x.score)
    ∧ (apply_learning_adjustments w c symptoms predictions).length = predictions.length := by
  unfold apply_learning_adjustments
  refine ⟨sortScored_perm _ _, sortScored_sorted _ _, ?_⟩
  rw [(sortScored_perm _ _).length_eq, List.length_map]

/-! ## Claim C9 -/

/-- Counterexample to claim C9 as stated: the static entries do not all
carry the three keys — "heart attack" has no `prevention` list and
"migraine" has no `warning_signs` list. -/
theorem recommendations_missing_key_counterexample :
    lookupStr (get_condition_recommendations "heart attack") "prevention" = none
    ∧ lookupStr (get_condition_recommendations "migraine") "warning_signs" = none := by
  exact ⟨by decide, by decide⟩

/-- Claim C9, amended: the result always contains `immediate_actions`, and
for any condition outside the four-entry static table it is exactly the
generic fallback triple (which does carry all three keys); the function is
a pure lookup. -/
theorem recommendations_amended (condition : String) :
    (lookupStr (get_condition_recommendations condition) "immediate_actions").isSome = true
    ∧ (condition ≠ "heart attack" → condition ≠ "stroke" → condition ≠ "migraine" →
        condition ≠ "pneumonia" →
        get_condition_recommendations condition = genericRecommendations) := by
  by_cases h1 : condition = "heart attack"
  · subst h1
    exact ⟨by decide, fun hc _ _ _ => absurd rfl hc⟩
  by_cases h2 : condition = "stroke"
  · subst h2
    exact ⟨by decide, fun _ hc _ _ => absurd rfl hc⟩
  by_cases h3 : condition = "migraine"
  · subst h3
    exact ⟨by decide, fun _ _ hc _ => absurd rfl hc⟩
  by_cases h4 : condition = "pneumonia"
  · subst h4
    exact ⟨by decide, fun _ _ _ hc => absurd rfl hc⟩
  have hlk : lookupStr RECOMMENDATIONS condition = none := by
    simp only [RECOMMENDATIONS, lookupStr]
    rw [if_neg (fun h => h1 h.symm), if_neg (fun h => h2 h.symm),
      if_neg (fun h => h3 h.symm), if_neg (fun h => h4 h.symm)]
  unfold get_condition_recommendations
  rw [hlk]
  exact ⟨by decide, fun _ _ _ _ => rfl⟩

/-- Witness for the amended C9 at the unknown condition "influenza". -/
theorem recommendations_amended_witness :
    (lookupStr (get_condition_recommendations "influenza") "immediate_actions").isSome = true
    ∧ get_condition_recommendations "influenza" = genericRecommendations :=
  ⟨(recommendations_amended "influenza").1,
   (recommendations_amended "influenza").2 (by decide) (by decide) (by decide) (by decide)⟩

/-! ## Claim C10 -/

/-- Claim C10: whenever the (stripped, lowercased) input splits into at
most 3 whitespace tokens and the short keyword path produces at least one
candidate, the returned list has at most 5 entries even when `k > 5`,
because the short path truncates to 5 before the top-`k` cut. -/
theorem short_path_capped_at_five (cls : Option (String → List String → List (String × ℚ)))
    (symptomText : String) (k : ℕ) (age : Option Int) (durationHours : Option ℚ)
    (medicalHistory : Option String)
    (h3 : (pySplit (strLower (pyStrip symptomText))).length ≤ 3)
    (hne : get_simple_keyword_suggestions (pyStrip symptomText) age durationHours medicalHistory ≠ []) :
    (suggest_fine_tuned_conditions cls symptomText k age durationHours medicalHistory).length ≤ 5 := by
  simp only [suggest_fine_tuned_conditions]
  by_cases he : pyStrip symptomText = ""
  · rw [if_pos he]
    simp
  · rw [if_neg he, if_pos ⟨h3, hne⟩]
    have h5 : (get_simple_keyword_suggestions (pyStrip symptomText) age durationHours
        medicalHistory).length ≤ 5 := by
      unfold get_simple_keyword_suggestions
      exact List.length_take_le _ _
    exact le_trans (List.take_sublist _ _).length_le h5

/-- Witness for C10: `"headache"` with `k = 10` still yields at most 5. -/
theorem short_path_capped_at_five_witness :
    (pySplit (strLower (pyStrip "headache"))).length ≤ 3
    ∧ get_simple_keyword_suggestions (pyStrip "headache") none none none ≠ []
    ∧ (suggest_fine_tuned_conditions none "headache" 10 none none none).length ≤ 5 :=
  ⟨by decide, by with_unfolding_all decide,
   short_path_capped_at_five none "headache" 10 none none none (by decide)
     (by with_unfolding_all decide)⟩

/-! ## Claim C2 -/

/-- Counterexample to claim C2 as stated: with the pattern-weight table
loaded from an existing storage file that lacks the token "fever",
`record_feedback` raises `KeyError` instead of writing the tables — the
claimed unconditional append-then-rewrite round-trip fails. -/
theorem record_feedback_keyerror_counterexample :
    record_feedback (feedback_system_init (some [("pain", 0.3)]) none)
      { symptoms := "fever", predictions := [], correctCondition := none,
        helpfulScore := "Yes", comments := "" } = .error "KeyError" := by
  decide

/-- Claim C2, amended: whenever `record_feedback` completes (no `KeyError`,
as is always the case from fresh default tables), the event is appended to
the log, both tables are rewritten to storage, reloading the stored tables
reproduces the in-memory tables exactly, and the in-memory tables are the
old tables with precisely the one event's delta applied. -/
theorem record_feedback_roundtrip (s : FBState) (ev : FeedbackEvent) (s' : FBState)
    (h : record_feedback s ev = .ok s') :
    s'.log = s.log ++ [ev]
    ∧ s'.weightsFile = some s'.pattern_weights.stored
    ∧ s'.correctionsFile = some s'.condition_corrections.stored
    ∧ (load_pattern_weights s'.weightsFile).entries = s'.pattern_weights.entries
    ∧ (load_condition_corrections s'.correctionsFile).stored = s'.condition_corrections.stored
    ∧ update_pattern_weights s.pattern_weights ev.symptoms ev.predictions ev.correctCondition
        ev.helpfulScore = .ok s'.pattern_weights
    ∧ update_condition_corrections s.condition_corrections ev.symptoms ev.predictions
        ev.correctCondition ev.helpfulScore = .ok s'.condition_corrections := by
  unfold record_feedback at h
  cases hw : update_pattern_weights s.pattern_weights ev.symptoms ev.predictions
      ev.correctCondition ev.helpfulScore with
  | error e =>
      rw [hw] at h
      exact absurd h (by simp)
  | ok w' =>
      rw [hw] at h
      cases hc : update_condition_corrections s.condition_corrections ev.symptoms ev.predictions
          ev.correctCondition ev.helpfulScore with
      | error e =>
          rw [hc] at h
          exact absurd h (by simp)
      | ok c' =>
          rw [hc] at h
          obtain rfl := Except.ok.inj h
          refine ⟨rfl, rfl, rfl, rfl, ?_, ?_, ?_⟩
          · simp [load_condition_corrections, CTable.stored, List.map_map, Function.comp]
          · rfl
          · rfl

/-- Witness for the amended C2 on a fresh store and a "fever" event. -/
theorem record_feedback_roundtrip_witness :
    record_feedback (feedback_system_init none none)
        ⟨"fever", [], none, "Yes", ""⟩ =
      .ok ⟨[⟨"fever", [], none, "Yes", ""⟩], some [("fever", 1/100)], some [],
        ⟨[("fever", 1/100)], true⟩, ⟨[], true⟩⟩
    ∧ ((⟨[⟨"fever", [], none, "Yes", ""⟩], some [("fever", 1/100)], some [],
        ⟨[("fever", 1/100)], true⟩, ⟨[], true⟩⟩ : FBState).log =
          (feedback_system_init none none).log ++ [⟨"fever", [], none, "Yes", ""⟩]
      ∧ (some [("fever", 1/100)] : Option (List (String × ℚ))) =
          some (WTable.stored ⟨[("fever", 1/100)], true⟩)
      ∧ (some [] : Option (List (String × List (String × ℚ)))) =
          some (CTable.stored ⟨[], true⟩)
      ∧ (load_pattern_weights (some [("fever", 1/100)])).entries =
          (⟨[("fever", 1/100)], true⟩ : WTable).entries
      ∧ (load_condition_corrections (some [])).stored = CTable.stored ⟨[], true⟩
      ∧ update_pattern_weights (feedback_system_init none none).pattern_weights "fever" [] none
          "Yes" = .ok ⟨[("fever", 1/100)], true⟩
      ∧ update_condition_corrections (feedback_system_init none none).condition_corrections
          "fever" [] none "Yes" = .ok ⟨[], true⟩) := by
  refine ⟨by with_unfolding_all decide, ?_⟩
  have h := record_feedback_roundtrip (feedback_system_init none none)
    ⟨"fever", [], none, "Yes", ""⟩
    ⟨[⟨"fever", [], none, "Yes", ""⟩], some [("fever", 1/100)], some [],
      ⟨[("fever", 1/100)], true⟩, ⟨[], true⟩⟩
    (by with_unfolding_all decide)
  exact h

/-! ## Claim C3 -/

/-- Claim C3 names a real property the code breaks: on a pattern-weight
table loaded from an existing storage file that lacks the extracted token,
the `+=` raises `KeyError` instead of treating the absent key as 0.0 — yet
the identical update on a fresh default table does treat the absent key as
0.0 and adds the delta, which is the documented intent. -/
theorem pattern_weight_keyerror :
    update_pattern_weights (load_pattern_weights (some [("pain", 0.3)])) "fever" [] none "Yes" =
      .error "KeyError"
    ∧ update_pattern_weights (load_pattern_weights none) "fever" [] none "Yes" =
      .ok ⟨[("fever", 1/100)], true⟩ := by
  exact ⟨by decide, by with_unfolding_all decide⟩

end CarePilot
